import Mathlib

/-!
Verification of the Wazzup relay core: outbound delivery queue with retry and
dead-letter semantics, the queue worker loop, the inbound filter, the operator
stop-flag gate, and construction-time configuration checks.  Definitions are a
shallow embedding of the TypeScript sources
(`wazzup-message-queue-service.ts`, `wazzup-queue-worker.ts`,
`redis-stop-flag-service.ts`, and the webhook route module).
-/

namespace Baqyt

/-- JavaScript truthiness of an optional string value: `undefined` and the
empty string are falsy, every other string is truthy. -/
def strTruthy : Option String → Bool
  | none => false
  | some s => s != ""

/-- Whitespace characters recognised by the regex class `\s` (ASCII part). -/
def isWsChar (c : Char) : Bool :=
  c == ' ' || c == '\t' || c == '\n' || c == '\x0d' || c == '\x0c' || c == '\x0b'

/-- Helper for `collapseWs`: the boolean records whether the previous
character was part of a whitespace run already replaced by a dash. -/
def collapseWsAux : Bool → List Char → List Char
  | _, [] => []
  | prevWs, c :: rest =>
    if isWsChar c then
      if prevWs then collapseWsAux true rest
      else '-' :: collapseWsAux true rest
    else c :: collapseWsAux false rest

/-- Embeds `s.replace(/\s+/g, '-')`: every maximal whitespace run becomes a
single dash. -/
def collapseWs (s : String) : String :=
  String.mk (collapseWsAux false s.data)

/-- Embeds the JavaScript `String.prototype.trim`: strips leading and
trailing whitespace. -/
def jsTrim (s : String) : String :=
  String.mk (((s.data.dropWhile isWsChar).reverse.dropWhile isWsChar).reverse)

/-- Lower-casing table for the ASCII letters (the commands the code compares
against are ASCII). -/
def lowerPairs : List (Char × Char) :=
  [('A', 'a'), ('B', 'b'), ('C', 'c'), ('D', 'd'), ('E', 'e'), ('F', 'f'),
   ('G', 'g'), ('H', 'h'), ('I', 'i'), ('J', 'j'), ('K', 'k'), ('L', 'l'),
   ('M', 'm'), ('N', 'n'), ('O', 'o'), ('P', 'p'), ('Q', 'q'), ('R', 'r'),
   ('S', 's'), ('T', 't'), ('U', 'u'), ('V', 'v'), ('W', 'w'), ('X', 'x'),
   ('Y', 'y'), ('Z', 'z')]

/-- Lower-case one character via the table. -/
def jsLowerChar (c : Char) : Char :=
  match lowerPairs.find? (fun pair => pair.1 == c) with
  | some pair => pair.2
  | none => c

/-- Embeds the JavaScript `String.prototype.toLowerCase` on the ASCII
range. -/
def jsToLower (s : String) : String :=
  String.mk (s.data.map jsLowerChar)

/-! ## Outbound delivery queue (`wazzup-message-queue-service.ts`) -/

/-- Embeds the `WazzupOutboundMessage` record type. -/
structure WazzupOutboundMessage where
  channelId : String
  chatType : String
  chatId : String
  text : String
  refMessageId : Option String := none
  attempt : Option Nat := none
  timestamp : Option Nat := none
deriving Repr, DecidableEq

/-- A serialized record stored in a Redis list: either a record that
deserializes back to a message, or a corrupt blob on which `JSON.parse`
throws. -/
inductive QueueRecord where
  | ok (message : WazzupOutboundMessage)
  | corrupt (raw : String)
deriving Repr, DecidableEq

/-- The two Redis lists owned by the queue service: `<prefix>:main` (pending,
FIFO) and `<prefix>:dead-letters` (terminal). -/
structure QueueState where
  main : List QueueRecord
  deadLetters : List QueueRecord
deriving Repr, DecidableEq

def emptyQueue : QueueState := { main := [], deadLetters := [] }

/-- Embeds `WazzupMessageQueueService.enqueue`: builds the payload with
`attempt = (message.attempt ?? 0) + 1` and
`timestamp = message.timestamp ?? Date.now()` and `rPush`es it onto the tail
of the main list.  `now` stands for `Date.now()`. -/
def enqueue (now : Nat) (message : WazzupOutboundMessage) (s : QueueState) :
    QueueState :=
  let payload : WazzupOutboundMessage :=
    { message with
        attempt := some (message.attempt.getD 0 + 1),
        timestamp := some (message.timestamp.getD now) }
  { s with main := s.main ++ [QueueRecord.ok payload] }

/-- Embeds `WazzupMessageQueueService.dequeue`: `blPop` from the head of the
main list.  An empty list is the timeout case (`null`, not an error); a
record on which `JSON.parse` throws is dropped with a log and `null` is
returned. -/
def dequeue (s : QueueState) : Option WazzupOutboundMessage × QueueState :=
  match s.main with
  | [] => (none, s)
  | QueueRecord.ok m :: rest => (some m, { s with main := rest })
  | QueueRecord.corrupt _ :: rest => (none, { s with main := rest })

/-- Embeds `WazzupMessageQueueService.retryMessage`: if
`(message.attempt ?? 0) >= maxRetries` the message is `rPush`ed verbatim onto
the dead-letter list and `false` is returned; otherwise the message is handed
back to `enqueue` with its current attempt (`message.attempt ?? 0`) and
`true` is returned. -/
def retryMessage (maxRetries now : Nat) (message : WazzupOutboundMessage)
    (s : QueueState) : Bool × QueueState :=
  if maxRetries ≤ message.attempt.getD 0 then
    (false, { s with deadLetters := s.deadLetters ++ [QueueRecord.ok message] })
  else
    (true, enqueue now { message with attempt := some (message.attempt.getD 0) } s)

/-- Concrete message used in the three-call retry scenario: a message whose
first enqueue produced `attempt = 1` at timestamp 1000. -/
def c1Msg : WazzupOutboundMessage :=
  { channelId := "channel-1", chatType := "whatsapp", chatId := "77066318623",
    text := "hello", refMessageId := none, attempt := some 1,
    timestamp := some 1000 }

/-- Trace of three consecutive `retryMessage` calls (with the requeued
message dequeued between calls), recording the three boolean results and the
final queue state. -/
def c1Trace : (Bool × Bool × Bool) × QueueState :=
  let r1 := retryMessage 3 2000 c1Msg emptyQueue
  let d1 := dequeue r1.2
  let r2 :=
    match d1.1 with
    | some m => retryMessage 3 3000 m d1.2
    | none => (false, d1.2)
  let d2 := dequeue r2.2
  let r3 :=
    match d2.1 with
    | some m => retryMessage 3 4000 m d2.2
    | none => (false, d2.2)
  ((r1.1, r2.1, r3.1), r3.2)

/-! ## Queue worker (`wazzup-queue-worker.ts`) -/

/-- The worker-visible state: the queue plus the message currently in flight
with `processMessage` (between `dequeue` and the retry/drop decision). -/
structure WorkerState where
  queue : QueueState
  inflight : Option WazzupOutboundMessage
deriving Repr, DecidableEq

/-- The worker's `dequeue` step of the consumer loop: the popped message (if
any) becomes in-flight. -/
def workerDequeue (s : WorkerState) : WorkerState :=
  let r := dequeue s.queue
  { queue := r.2, inflight := r.1 }

/-- Embeds the failure arm of `WazzupQueueWorker.processMessage`: when
`sendToWazzup` fails, the in-flight message is handed to `retryMessage` with
`maxRetries = 3` and is no longer in flight. -/
def workerFailSend (now : Nat) (s : WorkerState) : WorkerState :=
  match s.inflight with
  | none => s
  | some m => { queue := (retryMessage 3 now m s.queue).2, inflight := none }

/-- One failed-send cycle of the consumer loop: blocking dequeue followed by
a failed send and the resulting retry bookkeeping. -/
def failedSendCycle (now : Nat) (s : WorkerState) : WorkerState :=
  workerFailSend now (workerDequeue s)

/-- Two records carry the same logical message when all fields except the
retry bookkeeping (`attempt`, `timestamp`) agree. -/
def sameLogical (a b : WazzupOutboundMessage) : Bool :=
  a.channelId == b.channelId && a.chatType == b.chatType &&
  a.chatId == b.chatId && a.text == b.text && a.refMessageId == b.refMessageId

/-- Number of records in a Redis list carrying the given logical message. -/
def countLogical (m : WazzupOutboundMessage) (l : List QueueRecord) : Nat :=
  l.countP fun r =>
    match r with
    | QueueRecord.ok x => sameLogical m x
    | QueueRecord.corrupt _ => false

/-- Contribution of the in-flight slot to the location count. -/
def inflightCount (m : WazzupOutboundMessage) :
    Option WazzupOutboundMessage → Nat
  | none => 0
  | some x => if sameLogical m x then 1 else 0

/-- Total number of places (main queue, dead-letters, in flight) currently
holding the given logical message. -/
def locationCount (m : WazzupOutboundMessage) (s : WorkerState) : Nat :=
  countLogical m s.queue.main + countLogical m s.queue.deadLetters +
    inflightCount m s.inflight

/-- A fresh logical message for the exhausted-retries scenario. -/
def c2Msg : WazzupOutboundMessage :=
  { channelId := "channel-2", chatType := "whatsapp", chatId := "77475318623",
    text := "order update" }

/-- Initial worker state: `c2Msg` enqueued once into the empty queue, nothing
in flight. -/
def c2Start : WorkerState :=
  { queue := enqueue 1000 c2Msg emptyQueue, inflight := none }

/-- Every state the worker passes through during three consecutive failed
sends of `c2Msg`, including the in-flight instants. -/
def c2States : List WorkerState :=
  let s1 := workerDequeue c2Start
  let s2 := workerFailSend 1100 s1
  let s3 := workerDequeue s2
  let s4 := workerFailSend 1200 s3
  let s5 := workerDequeue s4
  let s6 := workerFailSend 1300 s5
  [c2Start, s1, s2, s3, s4, s5, s6]

/-- Worker state after exactly three consecutive failed sends of `c2Msg`. -/
def c2Final : WorkerState :=
  failedSendCycle 1300 (failedSendCycle 1200 (failedSendCycle 1100 c2Start))

/-! ## Webhook route module (inbound filter, media text resolution,
outbound persistence, operator commands) -/

/-- Provider message record as read by the route module.  The record type
itself is declared in `wazzup-webhook-service.ts` (not part of the core
sources); its fields are the ones the spec's data model lists and the route
module reads.  Optional fields are `Option`s; JavaScript truthiness of
optional strings is `strTruthy`. -/
structure WazzupMessage where
  messageId : String := ""
  channelId : Option String := none
  chatType : Option String := none
  chatId : Option String := none
  type : Option String := none
  text : Option String := none
  contentUri : Option String := none
  status : Option String := none
  isEcho : Option Bool := none
  authorName : Option String := none
  dateTime : Option String := none
deriving Repr, DecidableEq

/-- Embeds `shouldHandleMessage` from the route module: echoes are rejected,
a truthy status other than `"inbound"` is rejected, a falsy chatId is
rejected, an empty allowlist is rejected, otherwise membership decides. -/
def shouldHandleMessage (message : WazzupMessage)
    (allowedChatIds : List String) : Bool :=
  if message.isEcho.getD false then false
  else if strTruthy message.status && message.status.getD "" != "inbound" then
    false
  else if !strTruthy message.chatId then false
  else if allowedChatIds.isEmpty then false
  else allowedChatIds.contains (message.chatId.getD "")

/-- The media collaborator (`WazzupMediaService`): transcription and image
description oracles; `none` or an empty string stand for a failed or empty
result (both falsy at the call site). -/
structure MediaService where
  transcribeAudioFromUrl : String → Option String
  describeImageFromUrl : String → Option String

/-- Embeds `resolveMessageText`: trimmed text first, then the audio or image
collaborator segment (with a link fallback), then the generic content line
when nothing else was produced, joined by blank lines; `none` when no
segment was produced. -/
def resolveMessageText (media : MediaService) (message : WazzupMessage) :
    Option String :=
  let originalText := jsTrim (message.text.getD "")
  let segments : List String := if originalText != "" then [originalText] else []
  let segments :=
    if strTruthy message.contentUri && message.type == some "audio" then
      let uri := message.contentUri.getD ""
      let transcript := media.transcribeAudioFromUrl uri
      if strTruthy transcript then
        segments ++ ["Транскрипция аудио клиента: " ++ transcript.getD ""]
      else
        segments ++ ["Клиент отправил аудио. Ссылка: " ++ uri]
    else if strTruthy message.contentUri && message.type == some "image" then
      let uri := message.contentUri.getD ""
      let description := media.describeImageFromUrl uri
      if strTruthy description then
        segments ++ ["Описание изображения: " ++ description.getD ""]
      else
        segments ++ ["Клиент отправил изображение. Ссылка: " ++ uri]
    else if segments.isEmpty && strTruthy message.contentUri then
      segments ++ ["Клиент отправил " ++ message.type.getD "content" ++
        ". Ссылка: " ++ message.contentUri.getD ""]
    else segments
  if segments.isEmpty then none
  else some (String.intercalate "\n\n" segments)

/-- Embeds `shouldPersistOutboundMessage`: falsy chatId rejected, status
`"inbound"` rejected, only status exactly `"sent"` accepted. -/
def shouldPersistOutboundMessage (message : WazzupMessage) : Bool :=
  if !strTruthy message.chatId then false
  else if message.status == some "inbound" then false
  else message.status == some "sent"

/-- Embeds `resolveOutboundMessageText`: trimmed text, else a generic
outbound-content line when a contentUri is present, else `none`. -/
def resolveOutboundMessageText (message : WazzupMessage) : Option String :=
  let originalText := jsTrim (message.text.getD "")
  if originalText != "" then some originalText
  else if strTruthy message.contentUri then
    some ("Исходящее сообщение (" ++ message.type.getD "контент" ++
      "). Ссылка: " ++ message.contentUri.getD "")
  else none

/-- Embeds the `source` metadata computation: a message is attributed to the
automated agent exactly when it is an echo with no author name. -/
def outboundSource (message : WazzupMessage) : String :=
  if message.isEcho == some true && !strTruthy message.authorName then "agent"
  else "manager"

/-- A call made to the stop-flag store while persisting outbound
messages. -/
inductive StopCall where
  | setStop (chatId : String)
  | clearStop (chatId : String)
deriving Repr, DecidableEq

/-- The fields of a conversation-history record built by
`persistOutboundMessages` that the claims are about. -/
structure PersistedRecord where
  threadId : String
  role : String
  resourceId : String
  recordType : String
  text : String
  source : String
deriving Repr, DecidableEq

/-- Record pushed for an outbound message that is persisted as conversation
history. -/
def mkOutboundRecord (message : WazzupMessage) (text source : String) :
    PersistedRecord :=
  { threadId := message.chatId.getD "", role := "assistant",
    resourceId := "wazzup", recordType := message.type.getD "text",
    text := text, source := source }

/-- Environment of `persistOutboundMessages`: the allowlist, whether the
module-level stop-flag store was constructed, and an oracle saying which
store calls throw. -/
structure PersistEnv where
  allowedChatIds : List String
  stopServiceAvailable : Bool
  storeFails : StopCall → Bool

/-- Observable outcome of `persistOutboundMessages`: stop-flag store calls
made, history records saved, and the number of caught store errors that were
logged. -/
structure PersistResult where
  stopCalls : List StopCall
  records : List PersistedRecord
  errorLogs : Nat
deriving Repr, DecidableEq

/-- The filter applied by `persistOutboundMessages` before its loop:
`shouldPersistOutboundMessage(message) && allowedChatIds.includes(message.chatId ?? '')`. -/
def outboundEligible (env : PersistEnv) (message : WazzupMessage) : Bool :=
  shouldPersistOutboundMessage message &&
    env.allowedChatIds.contains (message.chatId.getD "")

/-- The per-message loop of `persistOutboundMessages`: messages without
resolvable text are skipped; a human-authored `/stop` or `/start` (trimmed,
lower-cased) triggers the store call — whose failure is caught and logged —
and is excluded from history via `continue`; every other message becomes a
history record. -/
def persistLoop (env : PersistEnv) : List WazzupMessage → PersistResult
  | [] => { stopCalls := [], records := [], errorLogs := 0 }
  | message :: rest =>
    let r := persistLoop env rest
    match resolveOutboundMessageText message with
    | none => r
    | some text =>
      let source := outboundSource message
      let trimmed := jsToLower (jsTrim text)
      if source != "agent" && env.stopServiceAvailable then
        if trimmed == "/stop" then
          let call := StopCall.setStop (message.chatId.getD "")
          { r with stopCalls := call :: r.stopCalls,
                   errorLogs := r.errorLogs +
                     (if env.storeFails call then 1 else 0) }
        else if trimmed == "/start" then
          let call := StopCall.clearStop (message.chatId.getD "")
          { r with stopCalls := call :: r.stopCalls,
                   errorLogs := r.errorLogs +
                     (if env.storeFails call then 1 else 0) }
        else
          { r with records := mkOutboundRecord message text source :: r.records }
      else
        { r with records := mkOutboundRecord message text source :: r.records }

/-- Embeds `persistOutboundMessages`: filter, then the per-message loop. -/
def persistOutboundMessages (env : PersistEnv)
    (messages : List WazzupMessage) : PersistResult :=
  persistLoop env (messages.filter (outboundEligible env))

/-- Outcome of one `agent.generate` call for an inbound message, after
`extractAssistantReplies`: a reply list, an `AbortError` (the timeout
cancellation), or any other thrown error. -/
inductive AgentOutcome where
  | replies (texts : List String)
  | abortError
  | otherError
deriving Repr, DecidableEq

/-- Environment of `processInboundMessages`: the conversational agent, the
media collaborator and the allowlist. -/
structure InboundEnv where
  agent : WazzupMessage → AgentOutcome
  media : MediaService
  allowedChatIds : List String

/-- Embeds `processInboundMessages`: messages are handled sequentially in
array order; unhandleable or textless ones are skipped; each reply of the
agent is sent; an `AbortError` hits the `return` statement, ending the whole
loop, while any other error logs and continues.  The result is the list of
`(chatId, reply)` sends performed. -/
def processInboundMessages (env : InboundEnv) :
    List WazzupMessage → List (String × String)
  | [] => []
  | message :: rest =>
    if !shouldHandleMessage message env.allowedChatIds then
      processInboundMessages env rest
    else if !strTruthy message.chatId || !strTruthy message.channelId ||
        !strTruthy message.chatType then
      processInboundMessages env rest
    else
      match resolveMessageText env.media message with
      | none => processInboundMessages env rest
      | some _ =>
        match env.agent message with
        | AgentOutcome.abortError => []
        | AgentOutcome.otherError => processInboundMessages env rest
        | AgentOutcome.replies rs =>
          if rs.isEmpty then processInboundMessages env rest
          else (rs.map fun r => (message.chatId.getD "", r)) ++
            processInboundMessages env rest

/-! ## Service construction and lazy connection guard -/

/-- Configuration produced by the `WazzupMessageQueueService` constructor. -/
structure QueueServiceConfig where
  redisUrl : String
  queueKeyRoot : String
  maxRetries : Nat
deriving Repr, DecidableEq

/-- Embeds the `WazzupMessageQueueService` constructor: the effective URL is
the option when the caller supplied one, otherwise `process.env.REDIS_URL`;
a falsy effective URL throws; the queue key root (`queuePrefix` in the
source) has whitespace runs collapsed to dashes. -/
def mkWazzupMessageQueueService (optionsRedisUrl envRedisUrl : Option String)
    (queueKeyRoot : String) (maxRetries : Nat) :
    Except String QueueServiceConfig :=
  let redisUrl := optionsRedisUrl.getD (envRedisUrl.getD "")
  if redisUrl == "" then
    Except.error
      "WazzupMessageQueueService: REDIS_URL must be provided via options or env"
  else
    Except.ok { redisUrl := redisUrl, queueKeyRoot := collapseWs queueKeyRoot,
                maxRetries := maxRetries }

/-- Configuration produced by the `RedisStopFlagService` constructor. -/
structure StopFlagConfig where
  redisUrl : String
  stopKeyRoot : String
deriving Repr, DecidableEq

/-- Embeds the `RedisStopFlagService` constructor (`keyPrefix` in the source
is `stopKeyRoot` here): a falsy effective URL throws. -/
def mkRedisStopFlagService (optionsRedisUrl envRedisUrl : Option String)
    (stopKeyRoot : String) : Except String StopFlagConfig :=
  let redisUrl := optionsRedisUrl.getD (envRedisUrl.getD "")
  if redisUrl == "" then
    Except.error
      "RedisStopFlagService: REDIS_URL must be provided via options or env"
  else
    Except.ok { redisUrl := redisUrl, stopKeyRoot := collapseWs stopKeyRoot }

/-- Embeds the module-level initialization of the route file: the stop-flag
store constructor is wrapped in try/catch; on a throw a warning is logged,
the service stays `none` (stop commands disabled) and module loading
continues. -/
def initRedisStopFlagService (envRedisUrl : Option String) :
    Option StopFlagConfig :=
  match mkRedisStopFlagService none envRedisUrl "mastra:input-stop" with
  | Except.ok c => some c
  | Except.error _ => none

/-- Which path `sendReplyToWazzup` takes for a reply. -/
inductive SendPath where
  | queued
  | directFallback
  | directHttp
deriving Repr, DecidableEq

/-- Embeds the control flow of `sendReplyToWazzup`: with the queue enabled,
queue-service construction (and enqueue) errors are caught and the reply is
dispatched through the detached direct-HTTP fallback; with the queue
disabled the direct path is used. -/
def sendReplyToWazzupPath (useWazzupQueue : Bool)
    (envRedisUrl : Option String) : SendPath :=
  if useWazzupQueue then
    match mkWazzupMessageQueueService none envRedisUrl "mastra:wazzup-queue" 3 with
    | Except.ok _ => SendPath.queued
    | Except.error _ => SendPath.directFallback
  else
    SendPath.directHttp

/-- The connection-relevant state of a `redis` client: whether it is open,
and the cached `connectPromise` (identified by a promise id) if a connect is
in flight. -/
structure ClientState where
  isOpen : Bool
  connectPromise : Option Nat
deriving Repr, DecidableEq

/-- What the synchronous prefix of `ensureClient` does before awaiting. -/
inductive EnsureAction where
  | alreadyOpen
  | awaitExisting (p : Nat)
  | startNew (p : Nat)
deriving Repr, DecidableEq

/-- Embeds the synchronous prefix of
`WazzupMessageQueueService.ensureClient`: an open client returns
immediately; otherwise `connectPromise ??= this.client.connect()` awaits the
cached in-flight attempt or starts and caches a fresh one (`fresh` is the id
of the newly created promise). -/
def queueEnsureClientStart (fresh : Nat) (s : ClientState) :
    EnsureAction × ClientState :=
  if s.isOpen then (EnsureAction.alreadyOpen, s)
  else
    match s.connectPromise with
    | some p => (EnsureAction.awaitExisting p, s)
    | none => (EnsureAction.startNew fresh,
        { s with connectPromise := some fresh })

/-- Embeds the await/catch part of `WazzupMessageQueueService.ensureClient`:
on success the client is open and the operation proceeds (`true`); on
failure the cached `connectPromise` is cleared and the error is rethrown
(`false`). -/
def queueEnsureClientSettle (success : Bool) (s : ClientState) :
    Bool × ClientState :=
  if success then (true, { s with isOpen := true })
  else (false, { s with connectPromise := none })

/-- Embeds the synchronous prefix of `RedisStopFlagService.ensureClient`
(textually identical to the queue service's). -/
def stopFlagEnsureClientStart (fresh : Nat) (s : ClientState) :
    EnsureAction × ClientState :=
  if s.isOpen then (EnsureAction.alreadyOpen, s)
  else
    match s.connectPromise with
    | some p => (EnsureAction.awaitExisting p, s)
    | none => (EnsureAction.startNew fresh,
        { s with connectPromise := some fresh })

/-- Embeds the await/catch part of `RedisStopFlagService.ensureClient`. -/
def stopFlagEnsureClientSettle (success : Bool) (s : ClientState) :
    Bool × ClientState :=
  if success then (true, { s with isOpen := true })
  else (false, { s with connectPromise := none })

/-! ## Concrete inputs used by counterexamples and witnesses -/

/-- A message whose status is present but empty: truthiness lets it through
the status check of `shouldHandleMessage`. -/
def c4Msg : WazzupMessage :=
  { messageId := "m-1", channelId := some "channel-1",
    chatType := some "whatsapp", chatId := some "77066318623",
    status := some "", isEcho := some false }

/-- Media collaborator whose oracles always fail. -/
def c5Media : MediaService :=
  { transcribeAudioFromUrl := fun _ => none,
    describeImageFromUrl := fun _ => none }

/-- First inbound message of the timeout scenario. -/
def c5M1 : WazzupMessage :=
  { messageId := "in-1", channelId := some "channel-1",
    chatType := some "whatsapp", chatId := some "77066318623",
    text := some "hello", status := some "inbound" }

/-- Second inbound message of the timeout scenario. -/
def c5M2 : WazzupMessage :=
  { c5M1 with messageId := "in-2", text := some "second" }

/-- Agent that times out (`AbortError`) on the first message and answers the
second. -/
def c5Agent : WazzupMessage → AgentOutcome :=
  fun message =>
    if message.messageId == "in-1" then AgentOutcome.abortError
    else AgentOutcome.replies ["ok"]

/-- Inbound-processing environment of the timeout scenario. -/
def c5Env : InboundEnv :=
  { agent := c5Agent, media := c5Media, allowedChatIds := ["77066318623"] }

/-- A human-authored outbound `/stop` command message. -/
def c6Msg : WazzupMessage :=
  { messageId := "out-1", channelId := some "channel-1",
    chatType := some "whatsapp", chatId := some "77066318623",
    text := some " /Stop ", status := some "sent", isEcho := some false,
    authorName := some "Manager" }

/-- Persistence environment with the stop-flag store available and no store
failures. -/
def c6Env : PersistEnv :=
  { allowedChatIds := ["77066318623"], stopServiceAvailable := true,
    storeFails := fun _ => false }

/-- An outbound record with status `"delivered"`, outside the persistence
gate. -/
def c9Msg : WazzupMessage :=
  { messageId := "out-2", channelId := some "channel-1",
    chatType := some "whatsapp", chatId := some "77066318623",
    text := some "sent earlier", status := some "delivered" }

/-- C2: one failed-send cycle preserves the number of locations holding any
logical message, so a message enqueued once is in at most one of main,
dead-letters, in-flight at every instant; `retryMessage` appends to
dead-letters exactly when `attempt >= maxRetries` at the failed send; and
after exactly three failed sends (maxRetries = 3, attempt starting at 1) the
message sits in dead-letters exactly once, absent from the main queue and not
in flight, having held exactly one location at every intermediate instant. -/
theorem worker_message_location_invariant (m msg : WazzupOutboundMessage)
    (now : Nat) (s : WorkerState) (q : QueueState) (h : s.inflight = none) :
    locationCount m (failedSendCycle now s) = locationCount m s ∧
    (retryMessage 3 now msg q).2.deadLetters =
      q.deadLetters ++
        (if 3 ≤ msg.attempt.getD 0 then [QueueRecord.ok msg] else []) ∧
    (c2States.all fun st => locationCount c2Msg st == 1) = true ∧
    c2Final.queue.main = [] ∧
    countLogical c2Msg c2Final.queue.deadLetters = 1 ∧
    c2Final.inflight = none := by
  refine ⟨?_, ?_, by decide, rfl, by decide, rfl⟩
  · obtain ⟨⟨main, dead⟩, infl⟩ := s
    dsimp at h
    subst h
    cases main with
    | nil => rfl
    | cons r rest =>
      cases r with
      | corrupt raw =>
        simp [failedSendCycle, workerDequeue, dequeue, workerFailSend,
          locationCount, countLogical, List.countP_cons]
      | ok x =>
        by_cases hx : 3 ≤ x.attempt.getD 0
        · simp [failedSendCycle, workerDequeue, dequeue, workerFailSend,
            retryMessage, hx, locationCount, countLogical, inflightCount,
            List.countP_cons, List.countP_append]
          omega
        · simp [failedSendCycle, workerDequeue, dequeue, workerFailSend,
            retryMessage, enqueue, hx, locationCount, countLogical,
            inflightCount, sameLogical, List.countP_cons, List.countP_append]
  · by_cases hmsg : 3 ≤ msg.attempt.getD 0 <;> simp [retryMessage, enqueue, hmsg]

/-- Witness for C2: the location-count preservation applied to the concrete
scenario start state. -/
theorem worker_message_location_invariant_witness :
    locationCount c2Msg (failedSendCycle 1100 c2Start) =
      locationCount c2Msg c2Start :=
  (worker_message_location_invariant c2Msg c2Msg 1100 c2Start emptyQueue
    rfl).1

/-- C1: `retryMessage` with `attempt >= maxRetries` (3) appends the message
verbatim to dead-letters and returns false; otherwise it re-enqueues with the
current attempt, which `enqueue` increments by exactly one leaving the
timestamp unchanged, and returns true.  Three consecutive calls starting at
attempt 1 give: requeued (attempt 2), requeued (attempt 3), dead-lettered
with result false. -/
theorem retryMessage_semantics (msg : WazzupOutboundMessage) (s : QueueState)
    (now t : Nat) (hts : msg.timestamp = some t) :
    (3 ≤ msg.attempt.getD 0 →
      retryMessage 3 now msg s =
        (false, { s with deadLetters := s.deadLetters ++ [QueueRecord.ok msg] })) ∧
    (msg.attempt.getD 0 < 3 →
      retryMessage 3 now msg s =
        (true, { s with main := s.main ++ [QueueRecord.ok
            { msg with attempt := some (msg.attempt.getD 0 + 1),
                       timestamp := some t }] })) ∧
    c1Trace = ((true, true, false),
      { main := [],
        deadLetters := [QueueRecord.ok { c1Msg with attempt := some 3 }] }) := by
  refine ⟨?_, ?_, rfl⟩
  · intro h
    simp [retryMessage, h]
  · intro h
    simp [retryMessage, enqueue, Nat.not_le.mpr h, hts]

/-- Witness for C1: both branches of `retryMessage_semantics` applied at
concrete messages over the empty queue. -/
theorem retryMessage_semantics_witness :
    retryMessage 3 2000 { c1Msg with attempt := some 3 } emptyQueue =
      (false, { emptyQueue with deadLetters :=
        emptyQueue.deadLetters ++ [QueueRecord.ok { c1Msg with attempt := some 3 }] }) ∧
    retryMessage 3 2000 c1Msg emptyQueue =
      (true, { emptyQueue with main :=
        emptyQueue.main ++ [QueueRecord.ok { c1Msg with attempt := some 2 }] }) :=
  ⟨(retryMessage_semantics { c1Msg with attempt := some 3 } emptyQueue 2000 1000
      rfl).1 (by decide),
   (retryMessage_semantics c1Msg emptyQueue 2000 1000 rfl).2.1 (by decide)⟩

/-- C3: `enqueue(msg)` followed immediately by `dequeue()` (single consumer,
no interleaving) yields a message with `attempt = (msg.attempt ?? 0) + 1`,
`timestamp = msg.timestamp` when set (otherwise the enqueue time), and all
other fields equal to those of `msg`. -/
theorem enqueue_dequeue_roundtrip (msg : WazzupOutboundMessage) (now : Nat)
    (s : QueueState) (hmain : s.main = []) :
    dequeue (enqueue now msg s) =
      (some { msg with attempt := some (msg.attempt.getD 0 + 1),
                       timestamp := some (msg.timestamp.getD now) }, s) := by
  obtain ⟨main, dead⟩ := s
  dsimp at hmain
  subst hmain
  rfl

/-- Witness for C3: a fresh message (no attempt, no timestamp) round-trips
through the empty queue with attempt 1 and the enqueue time. -/
theorem enqueue_dequeue_roundtrip_witness :
    dequeue (enqueue 500
        { channelId := "c", chatType := "whatsapp", chatId := "7", text := "hi" }
        emptyQueue) =
      (some { channelId := "c", chatType := "whatsapp", chatId := "7",
              text := "hi", refMessageId := none, attempt := some 1,
              timestamp := some 500 },
       emptyQueue) :=
  enqueue_dequeue_roundtrip
    { channelId := "c", chatType := "whatsapp", chatId := "7", text := "hi" }
    500 emptyQueue rfl

/-- C8: `dequeue` on an empty main list (the `blPop` timeout case) returns
null and leaves the state unchanged, raising no error; a head record that
fails to deserialize is dropped (removed from main, not re-queued) and not
placed in dead-letters, and `dequeue` returns null. -/
theorem dequeue_timeout_and_corrupt (s : QueueState) (raw : String)
    (rest : List QueueRecord) :
    (s.main = [] → dequeue s = (none, s)) ∧
    (s.main = QueueRecord.corrupt raw :: rest →
      dequeue s = (none, { s with main := rest }) ∧
      (dequeue s).2.deadLetters = s.deadLetters) := by
  obtain ⟨main, dead⟩ := s
  constructor
  · intro h
    dsimp at h
    subst h
    rfl
  · intro h
    dsimp at h
    subst h
    exact ⟨rfl, rfl⟩

/-- Witness for C8: timeout on the empty queue and a corrupt head record at
concrete states. -/
theorem dequeue_timeout_and_corrupt_witness :
    dequeue emptyQueue = (none, emptyQueue) ∧
    dequeue { main := [QueueRecord.corrupt "oops"], deadLetters := [] } =
      (none, { main := [], deadLetters := [] }) :=
  ⟨(dequeue_timeout_and_corrupt emptyQueue "x" []).1 rfl,
   ((dequeue_timeout_and_corrupt
      { main := [QueueRecord.corrupt "oops"], deadLetters := [] } "oops" []).2
      rfl).1⟩

/-- C4 (counterexample): a message whose status is present but empty and
otherwise eligible is handled — `shouldHandleMessage` returns true although
the claim requires false whenever the status is present and not
`"inbound"`. -/
theorem shouldHandleMessage_empty_status_counterexample :
    c4Msg.status.isSome = true ∧ c4Msg.status ≠ some "inbound" ∧
    shouldHandleMessage c4Msg ["77066318623"] = true :=
  ⟨rfl, by decide, by decide⟩

/-- C4 (amended): `shouldHandleMessage` returns true exactly when the
message is not an echo, its status is absent, empty or `"inbound"` (an empty
status string is falsy and passes the check), its chatId is present and
non-empty, and the chatId belongs to the allowlist (hence the allowlist is
non-empty); it returns false in every other case. -/
theorem shouldHandleMessage_characterization (m : WazzupMessage)
    (A : List String) :
    shouldHandleMessage m A = true ↔
      (m.isEcho ≠ some true ∧
       (∀ s, m.status = some s → s = "" ∨ s = "inbound") ∧
       ∃ c, m.chatId = some c ∧ c ≠ "" ∧ c ∈ A) := by
  obtain ⟨mid, ch, ct, cid, ty, tx, cu, st, ie, an, dt⟩ := m
  simp only [shouldHandleMessage, strTruthy]
  cases ie with
  | none =>
    cases st with
    | none =>
      cases cid with
      | none => simp
      | some c =>
        by_cases hc : c = "" <;>
          by_cases hA : A.isEmpty <;>
            simp_all [List.isEmpty_iff]
    | some s =>
      by_cases hs : s = "" <;> by_cases hsi : s = "inbound" <;>
        cases cid <;>
          simp_all [List.isEmpty_iff] <;>
            (intros; exact List.ne_nil_of_mem (by assumption))
  | some b =>
    cases b <;> cases st <;> cases cid <;> simp_all [List.isEmpty_iff] <;>
      (intros; exact List.ne_nil_of_mem (by assumption))

/-- C5 (counterexample): with the agent timing out (`AbortError`) on the
first of two handleable inbound messages, the whole payload's processing
stops — no reply is sent for the second message, although it yields a reply
when processed alone. -/
theorem processInbound_timeout_counterexample :
    processInboundMessages c5Env [c5M1, c5M2] = [] ∧
    processInboundMessages c5Env [c5M2] = [("77066318623", "ok")] :=
  ⟨rfl, rfl⟩

/-- C5 (amended): when the engine call for a handleable inbound message ends
in `AbortError` (the timeout cancellation), that item produces no reply, the
inbound message is not retried, and processing of the remaining inbound
messages of the payload also stops (the handler returns); any other engine
error skips only that item and the remaining messages are still
processed. -/
theorem processInbound_abort_semantics (env : InboundEnv)
    (m : WazzupMessage) (rest : List WazzupMessage)
    (hHandle : shouldHandleMessage m env.allowedChatIds = true)
    (hChat : strTruthy m.chatId = true)
    (hChannel : strTruthy m.channelId = true)
    (hType : strTruthy m.chatType = true)
    (hText : (resolveMessageText env.media m).isSome = true) :
    (env.agent m = AgentOutcome.abortError →
      processInboundMessages env (m :: rest) = []) ∧
    (env.agent m = AgentOutcome.otherError →
      processInboundMessages env (m :: rest) =
        processInboundMessages env rest) := by
  obtain ⟨text, htext⟩ := Option.isSome_iff_exists.mp hText
  constructor <;> intro ha <;>
    simp [processInboundMessages, hHandle, hChat, hChannel, hType, htext, ha]

/-- Witness for C5: the abort case of `processInbound_abort_semantics` at
the concrete timeout scenario. -/
theorem processInbound_abort_semantics_witness :
    processInboundMessages c5Env [c5M1, c5M2] = [] :=
  (processInbound_abort_semantics c5Env c5M1 [c5M2] (by decide) rfl rfl rfl
    rfl).1 rfl

/-- C6: a human-authored outbound message (not an echo) whose trimmed,
lower-cased text is exactly `/stop` (resp. `/start`), passing the
persistence gate with the stop-flag store available, triggers `setStop`
(resp. `clearStop`) for its chatId and is excluded from the persisted
history records; moreover the store calls and history records are
independent of which store calls fail — a store failure is caught and logged
and never aborts processing of the remaining messages. -/
theorem persistOutbound_stop_command (env : PersistEnv) (m : WazzupMessage)
    (rest : List WazzupMessage) (text : String)
    (hAvail : env.stopServiceAvailable = true)
    (hPersist : shouldPersistOutboundMessage m = true)
    (hAllow : m.chatId.getD "" ∈ env.allowedChatIds)
    (hEcho : m.isEcho ≠ some true)
    (hText : resolveOutboundMessageText m = some text) :
    (jsToLower (jsTrim text) = "/stop" →
      (persistOutboundMessages env (m :: rest)).stopCalls =
        StopCall.setStop (m.chatId.getD "") ::
          (persistOutboundMessages env rest).stopCalls ∧
      (persistOutboundMessages env (m :: rest)).records =
        (persistOutboundMessages env rest).records) ∧
    (jsToLower (jsTrim text) = "/start" →
      (persistOutboundMessages env (m :: rest)).stopCalls =
        StopCall.clearStop (m.chatId.getD "") ::
          (persistOutboundMessages env rest).stopCalls ∧
      (persistOutboundMessages env (m :: rest)).records =
        (persistOutboundMessages env rest).records) ∧
    (∀ f g : StopCall → Bool, ∀ msgs : List WazzupMessage,
      (persistOutboundMessages { env with storeFails := f } msgs).stopCalls =
        (persistOutboundMessages { env with storeFails := g } msgs).stopCalls ∧
      (persistOutboundMessages { env with storeFails := f } msgs).records =
        (persistOutboundMessages { env with storeFails := g } msgs).records) := by
  have hElig : outboundEligible env m = true := by
    simp [outboundEligible, hPersist, hAllow]
  have hNotEcho : (m.isEcho == some true) = false := by
    cases he : m.isEcho with
    | none => rfl
    | some b =>
      cases b with
      | false => rfl
      | true => exact absurd he hEcho
  have hSrc : outboundSource m = "manager" := by
    simp [outboundSource, hNotEcho]
  refine ⟨?_, ?_, ?_⟩
  · intro htrim
    constructor <;>
      simp [persistOutboundMessages, List.filter_cons, hElig, persistLoop,
        hText, hSrc, hAvail, htrim]
  · intro htrim
    constructor <;>
      simp [persistOutboundMessages, List.filter_cons, hElig, persistLoop,
        hText, hSrc, hAvail, htrim]
  · intro f g msgs
    have key : ∀ l : List WazzupMessage,
        (persistLoop { env with storeFails := f } l).stopCalls =
          (persistLoop { env with storeFails := g } l).stopCalls ∧
        (persistLoop { env with storeFails := f } l).records =
          (persistLoop { env with storeFails := g } l).records := by
      intro l
      induction l with
      | nil => exact ⟨rfl, rfl⟩
      | cons a l ih =>
        obtain ⟨ih1, ih2⟩ := ih
        simp only [persistLoop]
        cases hr : resolveOutboundMessageText a with
        | none => exact ⟨ih1, ih2⟩
        | some t =>
          by_cases hsrc :
              (outboundSource a != "agent" && env.stopServiceAvailable) = true
          · by_cases hstop : (jsToLower (jsTrim t) == "/stop") = true
            · simp [hsrc, hstop, ih1, ih2]
            · by_cases hstart : (jsToLower (jsTrim t) == "/start") = true
              · simp [hsrc, hstop, hstart, ih1, ih2]
              · simp [hsrc, hstop, hstart, ih1, ih2]
          · simp [hsrc, ih1, ih2]
    exact key (msgs.filter (outboundEligible env))

/-- Witness for C6: the `/stop` case at a concrete human-authored command
message. -/
theorem persistOutbound_stop_command_witness :
    (persistOutboundMessages c6Env [c6Msg]).stopCalls =
      StopCall.setStop (c6Msg.chatId.getD "") ::
        (persistOutboundMessages c6Env []).stopCalls ∧
    (persistOutboundMessages c6Env [c6Msg]).records =
      (persistOutboundMessages c6Env []).records :=
  (persistOutbound_stop_command c6Env c6Msg [] "/Stop" rfl (by decide)
    (by decide) (by decide) (by decide)).1 (by decide)

/-- C7 (counterexample): with no connection URL, both constructors throw,
but the stop-flag store's module-level initializer catches the error (the
service is simply absent, the module keeps loading) and the reply path
catches the queue service's error (falling back to the direct send) — the
error does not propagate uncaught to process startup. -/
theorem configuration_error_caught_counterexample :
    (∃ e, mkRedisStopFlagService none none "mastra:input-stop" =
      Except.error e) ∧
    initRedisStopFlagService none = none ∧
    (∃ e, mkWazzupMessageQueueService none none "mastra:wazzup-queue" 3 =
      Except.error e) ∧
    sendReplyToWazzupPath true none = SendPath.directFallback :=
  ⟨⟨_, rfl⟩, rfl, ⟨_, rfl⟩, rfl⟩

/-- C7 (amended): when no connection URL is provided via options or
environment, constructing either the queue service or the stop-flag store
throws at construction time; the stop-flag store's throw is caught by the
route module's initializer (stop commands disabled, loading continues) and
the queue service's throw on the reply path is caught with a fallback to the
direct HTTP send. -/
theorem missing_redis_url_construction
    (optionsRedisUrl envRedisUrl : Option String)
    (queueKeyRoot stopKeyRoot : String) (maxRetries : Nat)
    (hOpt : strTruthy optionsRedisUrl = false)
    (hEnv : strTruthy envRedisUrl = false) :
    (∃ e, mkWazzupMessageQueueService optionsRedisUrl envRedisUrl
      queueKeyRoot maxRetries = Except.error e) ∧
    (∃ e, mkRedisStopFlagService optionsRedisUrl envRedisUrl stopKeyRoot =
      Except.error e) ∧
    initRedisStopFlagService envRedisUrl = none ∧
    sendReplyToWazzupPath true envRedisUrl = SendPath.directFallback := by
  have hu2 : envRedisUrl.getD "" = "" := by
    cases envRedisUrl with
    | none => rfl
    | some s => simpa [strTruthy] using hEnv
  have hu : optionsRedisUrl.getD (envRedisUrl.getD "") = "" := by
    cases optionsRedisUrl with
    | none => exact hu2
    | some s => simpa [strTruthy] using hOpt
  refine ⟨?_, ?_, ?_, ?_⟩
  · exact ⟨"WazzupMessageQueueService: REDIS_URL must be provided via options or env",
      by simp [mkWazzupMessageQueueService, hu]⟩
  · exact ⟨"RedisStopFlagService: REDIS_URL must be provided via options or env",
      by simp [mkRedisStopFlagService, hu]⟩
  · simp [initRedisStopFlagService, mkRedisStopFlagService, hu2]
  · simp [sendReplyToWazzupPath, mkWazzupMessageQueueService, hu2]

/-- Witness for C7: both constructors applied with no URL anywhere, and the
two catching call sites. -/
theorem missing_redis_url_construction_witness :
    (∃ e, mkWazzupMessageQueueService none (some "") "mastra:wazzup-queue" 3 =
      Except.error e) ∧
    (∃ e, mkRedisStopFlagService none (some "") "mastra:input-stop" =
      Except.error e) ∧
    initRedisStopFlagService (some "") = none ∧
    sendReplyToWazzupPath true (some "") = SendPath.directFallback :=
  missing_redis_url_construction none (some "") "mastra:wazzup-queue"
    "mastra:input-stop" 3 rfl rfl

/-- C9: a webhook message enters the outbound-persistence loop (and hence
the operator-command scan) exactly when its chatId is present and non-empty,
its status is exactly `"sent"`, and its chatId is in the allowlist; a
message failing this gate is ignored entirely — the persistence outcome is
as if it were absent, so no store call, record, or log arises from it. -/
theorem outbound_persistence_gate (env : PersistEnv) (m : WazzupMessage)
    (rest : List WazzupMessage) :
    (outboundEligible env m = true ↔
      ∃ c, m.chatId = some c ∧ c ≠ "" ∧ m.status = some "sent" ∧
        c ∈ env.allowedChatIds) ∧
    (outboundEligible env m = false →
      persistOutboundMessages env (m :: rest) =
        persistOutboundMessages env rest) := by
  constructor
  · cases hc : m.chatId with
    | none =>
      simp [outboundEligible, shouldPersistOutboundMessage, strTruthy, hc]
    | some c =>
      by_cases hce : c = "" <;>
        cases hs : m.status with
        | none =>
          simp_all [outboundEligible, shouldPersistOutboundMessage, strTruthy]
        | some s =>
          by_cases hsi : s = "inbound" <;> by_cases hss : s = "sent" <;>
            simp_all [outboundEligible, shouldPersistOutboundMessage,
              strTruthy]
  · intro h
    simp [persistOutboundMessages, List.filter_cons, h]

/-- Witness for C9: a status `"delivered"` record contributes nothing to the
persistence outcome. -/
theorem outbound_persistence_gate_witness :
    persistOutboundMessages c6Env [c9Msg] = persistOutboundMessages c6Env [] :=
  (outbound_persistence_gate c6Env c9Msg []).2 (by decide)

/-- C10: for the lazy connection guard of both services: an open client
short-circuits (no connect attempt); with a connect in flight, a concurrent
operation awaits that single cached attempt and starts no second connect;
with no cached attempt a fresh connect is started and cached; on a failed
attempt the cached promise is cleared and the operation rejects, so the next
operation starts a fresh attempt instead of re-awaiting the cached failure;
on success the client is open and subsequent operations start no new
connect.  The stop-flag store's guard is the same function as the queue
service's. -/
theorem ensureClient_connection_guard (fresh p : Nat) (s : ClientState) :
    (s.isOpen = true →
      queueEnsureClientStart fresh s = (EnsureAction.alreadyOpen, s)) ∧
    (s.isOpen = false → s.connectPromise = some p →
      queueEnsureClientStart fresh s = (EnsureAction.awaitExisting p, s)) ∧
    (s.isOpen = false → s.connectPromise = none →
      queueEnsureClientStart fresh s =
        (EnsureAction.startNew fresh, { s with connectPromise := some fresh })) ∧
    queueEnsureClientSettle false s = (false, { s with connectPromise := none }) ∧
    (s.isOpen = false →
      queueEnsureClientStart fresh (queueEnsureClientSettle false s).2 =
        (EnsureAction.startNew fresh,
         { s with connectPromise := some fresh })) ∧
    queueEnsureClientSettle true s = (true, { s with isOpen := true }) ∧
    queueEnsureClientStart fresh (queueEnsureClientSettle true s).2 =
      (EnsureAction.alreadyOpen, { s with isOpen := true }) ∧
    stopFlagEnsureClientStart = queueEnsureClientStart ∧
    stopFlagEnsureClientSettle = queueEnsureClientSettle := by
  obtain ⟨io, cp⟩ := s
  refine ⟨?_, ?_, ?_, rfl, ?_, rfl, rfl, rfl, rfl⟩
  · intro h
    dsimp at h
    subst h
    rfl
  · intro h hp
    dsimp at h hp
    subst h
    subst hp
    rfl
  · intro h hp
    dsimp at h hp
    subst h
    subst hp
    rfl
  · intro h
    dsimp at h
    subst h
    rfl

/-- Witness for C10: a closed client with no cached attempt starts and
caches a fresh connect. -/
theorem ensureClient_connection_guard_witness :
    queueEnsureClientStart 7 { isOpen := false, connectPromise := none } =
      (EnsureAction.startNew 7, { isOpen := false, connectPromise := some 7 }) :=
  (ensureClient_connection_guard 7 0
    { isOpen := false, connectPromise := none }).2.2.1 rfl rfl

end Baqyt
